import Mathlib

/-
Formal model of the DebouncedRotaryEncoder library
(src/lib/RotaryEncoder/RotaryEncoder.h and the implementation file).

The model is a shallow embedding: each poll of RotaryEncoder::loop is a pure
function from the encoder state and the sampled pin levels (plus the millis
timestamp) to a new state, a list of emitted callback events, the list of pins
read, and the list of digitalWrite calls performed.  Digital levels are Bool
(true = HIGH, false = LOW).  The C++ unsigned long subtractions on millis
values are modelled by usub32 (wraparound at 2 to the power 32); the uint8_t
click counter wraps at 256; the uint16_t transition history wraps at 65536.
Bit operations on disjoint bit ranges are written arithmetically:
shifting left by 2 and or-ing a 2-bit value is times 4 plus the value, the
mask with 0b1111 is mod 16, the mask with 0xff is mod 256.
Each call of a debounce routine uses a single timestamp for all of its
millis() reads.
-/

namespace RotaryEncoder

/-- Events delivered through the five registered callbacks. -/
inductive Ev
| CW
| CCW
| Click
| LongClick
| DoubleClick
deriving DecidableEq, Repr

/-- Wraparound subtraction of 32-bit unsigned integers, as performed by the
C++ expression a - b on unsigned long (32 bits on the target platform). -/
def usub32 (a b : Nat) : Nat := (a + 4294967296 - b) % 4294967296

/-- Member _msDebounce = 50. -/
def msDebounce : Nat := 50

/-- Member _msLongClick = 300. -/
def msLongClick : Nat := 300

/-- Member _msDoubleClickGap = 250. -/
def msDoubleClickGap : Nat := 250

/-- Member _validTransitions = {0,1,1,0,1,0,0,1,1,0,0,1,0,1,1,0}. -/
def validTransitions : List Nat := [0, 1, 1, 0, 1, 0, 0, 1, 1, 0, 0, 1, 0, 1, 1, 0]

/-- Button channel state: _buttonState, _clickCount, _msButtonDown,
_msFirstClick.  The field _prevButtonState is not stored because every call of
_debounceButton overwrites it with _buttonState before reading it. -/
structure BtnState where
  buttonState : Bool
  clickCount : Nat
  msButtonDown : Nat
  msFirstClick : Nat
deriving DecidableEq, Repr

/-- Cleaning-algorithm channel state: the eight uint8_t level fields of the
class that _debounceRotaryByCleaning uses. -/
structure CleanState where
  clkState : Bool
  prevClkState : Bool
  cleanedClkState : Bool
  prevCleanedClkState : Bool
  dataState : Bool
  prevDataState : Bool
  cleanedDataState : Bool
  prevCleanedDataState : Bool
deriving DecidableEq, Repr

/-- Table-algorithm channel state: _newTransition (4 bits after the mask) and
_transitions (uint16_t). -/
structure TableState where
  newTransition : Nat
  transitions : Nat
deriving DecidableEq, Repr

/-- Pin numbers _pinClk, _pinData, _pinButton stored by the constructors. -/
structure Pins where
  clk : Nat
  data : Nat
  button : Nat
deriving DecidableEq, Repr

/-- Whole encoder state. -/
structure EncState where
  btn : BtnState
  clean : CleanState
  table : TableState
  byTable : Bool
  pins : Pins
deriving DecidableEq, Repr

/-- Poll input: the levels the three digitalRead calls would return this poll
and the millis() timestamp. -/
structure Input where
  clk : Bool
  data : Bool
  button : Bool
  now : Nat
deriving DecidableEq, Repr

/-- Result of one call of RotaryEncoder::loop: the new state, the events
delivered through callbacks in order, the pins read in order, and the
digitalWrite calls (pin, level) performed in order. -/
structure PollOut where
  state : EncState
  events : List Ev
  reads : List Nat
  writes : List (Nat × Bool)
deriving DecidableEq, Repr

/-- Value of _newTransition after the shift, the two conditional or-s and the
mask with 0b1111 (RotaryEncoder.cpp lines 107 to 110).  The or with the
2-bit sample lands in the two bits cleared by the shift, so it is addition. -/
def newIdx (prev : Nat) (clk data : Bool) : Nat :=
  (prev * 4 + ((if clk then 2 else 0) + (if data then 1 else 0))) % 16

/-- Value of _transitions after the shift by 4 (uint16_t, wraps at 65536) and
the or with the new 4-bit index (lines 114 to 115). -/
def pushTrans (tr nt : Nat) : Nat := (tr * 16 + nt) % 65536

/-- Events emitted by the two low-byte comparisons of _transitions against
0b00010111 and 0b00101011 (lines 116 to 117). -/
def stepEvents (tr : Nat) : List Ev :=
  (if tr % 256 = 0b00010111 then [Ev.CW] else []) ++
  (if tr % 256 = 0b00101011 then [Ev.CCW] else [])

/-- Model of RotaryEncoder::_debounceRotaryByTable.  The index memory is
updated unconditionally; the history and the event checks happen only when the
table lookup is nonzero. -/
def debounceRotaryByTable (s : TableState) (clk data : Bool) : TableState × List Ev :=
  if validTransitions.getD (newIdx s.newTransition clk data) 0 != 0 then
    (⟨newIdx s.newTransition clk data,
      pushTrans s.transitions (newIdx s.newTransition clk data)⟩,
     stepEvents (pushTrans s.transitions (newIdx s.newTransition clk data)))
  else
    (⟨newIdx s.newTransition clk data, s.transitions⟩, [])

/-- Model of RotaryEncoder::_debounceRotaryByCleaning, including the two
digitalWrite calls to GPIO_NUM_2 and GPIO_NUM_4 (lines 81 and 88).  The result
is (new state, events, writes). -/
def debounceRotaryByCleaning (s : CleanState) (clk data : Bool) :
    CleanState × List Ev × List (Nat × Bool) :=
  let s1 : CleanState := { s with clkState := clk, dataState := data }
  let s2 : CleanState :=
    if s1.prevClkState ≠ clk then
      { s1 with prevClkState := clk, cleanedClkState := data }
    else s1
  let w1 : List (Nat × Bool) := if s1.prevClkState ≠ clk then [(2, data)] else []
  let s3 : CleanState :=
    if s2.prevDataState ≠ data then
      { s2 with prevDataState := data, cleanedDataState := clk }
    else s2
  let w2 : List (Nat × Bool) := if s2.prevDataState ≠ data then [(4, clk)] else []
  let evs : List Ev :=
    (if s3.prevCleanedClkState = false ∧ s3.cleanedClkState = true ∧
        s3.cleanedDataState = false then [Ev.CW] else []) ++
    (if s3.prevCleanedDataState = false ∧ s3.cleanedDataState = true ∧
        s3.cleanedClkState = false then [Ev.CCW] else [])
  ({ s3 with prevCleanedClkState := s3.cleanedClkState,
             prevCleanedDataState := s3.cleanedDataState }, evs, w1 ++ w2)

/-- Model of RotaryEncoder::_debounceButton (lines 137 to 179).  The first
branch is the press edge, the second the release edge with its three timing
cases, the third the unchanged-level branch with the two gap-timeout cases. -/
def debounceButton (s : BtnState) (level : Bool) (now : Nat) : BtnState × List Ev :=
  if s.buttonState = true ∧ level = false then
    ({ s with buttonState := level, msButtonDown := now }, [])
  else if s.buttonState = false ∧ level = true then
    if usub32 now s.msButtonDown < msDebounce then
      ({ s with buttonState := level }, [])
    else if usub32 now s.msButtonDown > msLongClick then
      ({ s with buttonState := level }, [Ev.LongClick])
    else if (s.clickCount + 1) % 256 = 1 then
      ({ s with buttonState := level, clickCount := (s.clickCount + 1) % 256,
                msFirstClick := now }, [])
    else
      ({ s with buttonState := level, clickCount := (s.clickCount + 1) % 256 }, [])
  else
    if s.clickCount = 1 ∧ usub32 now s.msFirstClick > msDoubleClickGap then
      ({ s with buttonState := level, msFirstClick := 0, clickCount := 0 }, [Ev.Click])
    else if s.clickCount > 1 then
      ({ s with buttonState := level, msFirstClick := 0, clickCount := 0 }, [Ev.DoubleClick])
    else
      ({ s with buttonState := level }, [])

/-- Model of RotaryEncoder::setDebouncingRotEncByTable. -/
def setDebouncingRotEncByTable (s : EncState) (byTable : Bool) : EncState :=
  { s with byTable := byTable }

/-- Model of RotaryEncoder::loop (lines 184 to 188): one button pass followed
by the rotary pass of the selected algorithm.  The button pin is read first
(inside _debounceButton), then the clock and data pins. -/
def loop (s : EncState) (i : Input) : PollOut :=
  if s.byTable then
    { state := { s with btn := (debounceButton s.btn i.button i.now).1,
                        table := (debounceRotaryByTable s.table i.clk i.data).1 },
      events := (debounceButton s.btn i.button i.now).2 ++
                (debounceRotaryByTable s.table i.clk i.data).2,
      reads := [s.pins.button, s.pins.clk, s.pins.data],
      writes := [] }
  else
    { state := { s with btn := (debounceButton s.btn i.button i.now).1,
                        clean := (debounceRotaryByCleaning s.clean i.clk i.data).1 },
      events := (debounceButton s.btn i.button i.now).2 ++
                (debounceRotaryByCleaning s.clean i.clk i.data).2.1,
      reads := [s.pins.button, s.pins.clk, s.pins.data],
      writes := (debounceRotaryByCleaning s.clean i.clk i.data).2.2 }

/-- Initial button state.  _buttonState = HIGH, _clickCount = 0,
_msFirstClick = 0; _msButtonDown has no initializer in the header, so it is a
parameter (it is always written by a press edge before any branch reads it). -/
def initBtn (msButtonDownInit : Nat) : BtnState :=
  ⟨true, 0, msButtonDownInit, 0⟩

/-- Initial encoder state as established by either constructor: the field
initializers of RotaryEncoder.h.  The fields _cleanedClkState, _prevDataState,
_cleanedDataState, _prevCleanedDataState and _msButtonDown have no
initializers, so they are parameters.  Both constructors produce the same
logical state; they differ only in the stored pin numbers (the two-argument
constructor leaves _pinButton indeterminate). -/
def initEnc (pins : Pins) (cleanedClkInit prevDataInit cleanedDataInit prevCleanedDataInit : Bool)
    (msButtonDownInit : Nat) : EncState :=
  { btn := initBtn msButtonDownInit,
    clean := { clkState := true, prevClkState := false,
               cleanedClkState := cleanedClkInit, prevCleanedClkState := true,
               dataState := true, prevDataState := prevDataInit,
               cleanedDataState := cleanedDataInit,
               prevCleanedDataState := prevCleanedDataInit },
    table := { newTransition := 0, transitions := 0 },
    byTable := true,
    pins := pins }

/-- Run of RotaryEncoder::loop over a list of poll inputs, collecting the
emitted events in order. -/
def runLoop (s : EncState) (is : List Input) : EncState × List Ev :=
  match is with
  | [] => (s, [])
  | i :: rest =>
      match runLoop (loop s i).state rest with
      | (s2, evs) => (s2, (loop s i).events ++ evs)

/-- Run of _debounceButton over a list of (level, millis) poll samples,
collecting the emitted events in order. -/
def runButton (s : BtnState) (ps : List (Bool × Nat)) : BtnState × List Ev :=
  match ps with
  | [] => (s, [])
  | (l, t) :: rest =>
      match runButton (debounceButton s l t).1 rest with
      | (s2, evs) => (s2, (debounceButton s l t).2 ++ evs)

/-- Run of _debounceRotaryByTable alone over a list of (clock, data) level
pairs, collecting the emitted events in order. -/
def runTable (s : TableState) (ps : List (Bool × Bool)) : TableState × List Ev :=
  match ps with
  | [] => (s, [])
  | (ck, dt) :: rest =>
      match runTable (debounceRotaryByTable s ck dt).1 rest with
      | (s2, evs) => (s2, (debounceRotaryByTable s ck dt).2 ++ evs)

/-- Poll inputs for one physical clockwise detent sampled over eight polls
(each quadrature level pair seen twice while the contacts settle): levels
11, 10, 10, 00, 00, 01, 01, 11 on (clock, data). -/
def cwDetentLevels : List (Bool × Bool) :=
  [(true, true), (true, false), (true, false), (false, false),
   (false, false), (false, true), (false, true), (true, true)]

/-- Poll inputs for one physical counterclockwise detent sampled over eight
polls: levels 11, 01, 01, 00, 00, 10, 10, 11 on (clock, data). -/
def ccwDetentLevels : List (Bool × Bool) :=
  [(true, true), (false, true), (false, true), (false, false),
   (false, false), (true, false), (true, false), (true, true)]

/-- Poll inputs built from rotary level pairs with the button held released
(HIGH) and an arbitrary fixed timestamp. -/
def mkRotaryInputs (ps : List (Bool × Bool)) : List Input :=
  ps.map (fun p => ⟨p.1, p.2, true, 0⟩)

/-- Unfolding lemma for runLoop on a nonempty input list. -/
theorem runLoop_cons (s : EncState) (i : Input) (rest : List Input) :
    runLoop s (i :: rest) =
      ((runLoop (loop s i).state rest).1, (loop s i).events ++ (runLoop (loop s i).state rest).2) := by
  rcases h : runLoop (loop s i).state rest with ⟨s2, evs⟩
  simp [runLoop, h]

/-- A poll of the button classifier in the idle released state (HIGH level,
no pending clicks) emits nothing and leaves the button state unchanged. -/
theorem idleButton (m : Nat) :
    debounceButton ⟨true, 0, m, 0⟩ true 0 = (⟨true, 0, m, 0⟩, []) := by
  simp [debounceButton, usub32]

/-- With the button idle and table mode selected, a run of RotaryEncoder::loop
over rotary inputs acts exactly as the corresponding run of the table
debouncer: the button, cleaning and pin state are carried through untouched
and the emitted events are those of the table debouncer. -/
theorem runLoop_table_idle (m : Nat) (cl : CleanState) (pn : Pins) (tb : TableState)
    (ps : List (Bool × Bool)) :
    runLoop ⟨⟨true, 0, m, 0⟩, cl, tb, true, pn⟩ (mkRotaryInputs ps) =
      (⟨⟨true, 0, m, 0⟩, cl, (runTable tb ps).1, true, pn⟩, (runTable tb ps).2) := by
  induction ps generalizing tb with
  | nil => simp [mkRotaryInputs, runLoop, runTable]
  | cons hd tl ih =>
      rcases hd with ⟨ck, dt⟩
      rw [show mkRotaryInputs ((ck, dt) :: tl) = ⟨ck, dt, true, 0⟩ :: mkRotaryInputs tl from rfl]
      rw [runLoop_cons]
      have hl : loop ⟨⟨true, 0, m, 0⟩, cl, tb, true, pn⟩ ⟨ck, dt, true, 0⟩ =
          ⟨⟨⟨true, 0, m, 0⟩, cl, (debounceRotaryByTable tb ck dt).1, true, pn⟩,
           (debounceRotaryByTable tb ck dt).2, [pn.button, pn.clk, pn.data], []⟩ := by
        simp [loop, idleButton m]
      rw [hl]
      dsimp only
      rw [ih]
      rcases h : runTable (debounceRotaryByTable tb ck dt).1 tl with ⟨s2, evs⟩
      simp [runTable, h]

/-- C1: from the initial encoder state (table mode is the default), the
8-poll clockwise detent sequence emits exactly one CW event and no CCW event,
and the 8-poll counterclockwise sequence emits exactly one CCW event and no
CW event, whatever the values of the uninitialized fields. -/
theorem c1_table_detent_events (p : Pins) (a b c d : Bool) (m : Nat) :
    ((runLoop (initEnc p a b c d m) (mkRotaryInputs cwDetentLevels)).2.count Ev.CW = 1 ∧
     (runLoop (initEnc p a b c d m) (mkRotaryInputs cwDetentLevels)).2.count Ev.CCW = 0) ∧
    ((runLoop (initEnc p a b c d m) (mkRotaryInputs ccwDetentLevels)).2.count Ev.CCW = 1 ∧
     (runLoop (initEnc p a b c d m) (mkRotaryInputs ccwDetentLevels)).2.count Ev.CW = 0) := by
  rw [show initEnc p a b c d m =
    ⟨⟨true, 0, m, 0⟩, ⟨true, false, a, true, true, b, c, d⟩, ⟨0, 0⟩, true, p⟩ from rfl]
  rw [runLoop_table_idle, runLoop_table_idle]
  dsimp only
  refine ⟨⟨?_, ?_⟩, ⟨?_, ?_⟩⟩ <;> decide

/-- C2 counterexample: a run of the button classifier from its initial state
(press of 110 ms giving one pending click, then a press of 320 ms) whose last
poll is a release edge with elapsed time 320 ms: the poll emits LongClick but
leaves _clickCount = 1 and _msFirstClick = 1120, so the long-click branch does
not clear the accumulator as the claim states. -/
theorem c2_counterexample :
    (runButton (initBtn 0)
      [(true, 1000), (false, 1010), (true, 1120), (false, 1130), (true, 1450)]).2
      = [Ev.LongClick] ∧
    (runButton (initBtn 0)
      [(true, 1000), (false, 1010), (true, 1120), (false, 1130), (true, 1450)]).1.clickCount
      = 1 ∧
    (runButton (initBtn 0)
      [(true, 1000), (false, 1010), (true, 1120), (false, 1130), (true, 1450)]).1.msFirstClick
      = 1120 := by
  decide

/-- C2 amended: a release edge whose press-to-release duration exceeds the
300 ms long-click threshold emits exactly one LongClick event and leaves every
other field of the button state unchanged; in particular _clickCount and
_msFirstClick are NOT cleared. -/
theorem c2_amended (s : BtnState) (now : Nat) (hb : s.buttonState = false)
    (hlong : usub32 now s.msButtonDown > msLongClick) :
    debounceButton s true now = ({ s with buttonState := true }, [Ev.LongClick]) := by
  have hnb : ¬ usub32 now s.msButtonDown < msDebounce := by
    simp only [msDebounce]
    simp only [msLongClick] at hlong
    omega
  simp [debounceButton, hb, hnb, hlong]

/-- C2 witness: the amended long-click theorem at a concrete state and time. -/
theorem c2_amended_witness :
    usub32 500 100 > msLongClick ∧
    debounceButton ⟨false, 5, 100, 7⟩ true 500 = (⟨true, 5, 100, 7⟩, [Ev.LongClick]) :=
  ⟨by decide, c2_amended ⟨false, 5, 100, 7⟩ 500 rfl (by decide)⟩

/-- C4 counterexample: the four repeat indices 0b0000, 0b0101, 0b1010 and
0b1111 hold value 0 in the validity table, not 1 as the claim states. -/
theorem c4_counterexample :
    validTransitions.getD 0 0 = 0 ∧ validTransitions.getD 5 0 = 0 ∧
    validTransitions.getD 10 0 = 0 ∧ validTransitions.getD 15 0 = 0 := by
  decide

/-- C4 amended: a table entry is 1 exactly when precisely one of the two bits
changed between the previous pair (bits 3 and 2) and the current pair (bits 1
and 0); repeats of the same pair and simultaneous double flips are 0. -/
theorem c4_amended (i : Fin 16) :
    validTransitions.getD i.val 0 = 1 ↔
      Xor' ((i.val / 8) % 2 ≠ (i.val / 2) % 2) ((i.val / 4) % 2 ≠ i.val % 2) := by
  revert i
  decide

/-- C5 counterexample: from table state (0, 0), a poll sampling clock and data
both HIGH has the invalid transition index 0b0011, yet the poll changes the
state: _newTransition becomes 3 while the claim states every field is
unchanged. -/
theorem c5_counterexample :
    validTransitions.getD (newIdx 0 true true) 0 = 0 ∧
    debounceRotaryByTable ⟨0, 0⟩ true true = (⟨3, 0⟩, []) ∧
    (⟨3, 0⟩ : TableState).newTransition ≠ (⟨0, 0⟩ : TableState).newTransition := by
  decide

/-- C5 amended: a table poll whose looked-up transition index is invalid emits
no event and leaves _transitions unchanged, but it still overwrites
_newTransition with the freshly packed index. -/
theorem c5_amended (s : TableState) (clk data : Bool)
    (h : validTransitions.getD (newIdx s.newTransition clk data) 0 = 0) :
    debounceRotaryByTable s clk data
      = (⟨newIdx s.newTransition clk data, s.transitions⟩, []) := by
  have hb : (validTransitions.getD (newIdx s.newTransition clk data) 0 != 0) = false := by
    rw [h]
    rfl
  unfold debounceRotaryByTable
  rw [hb]
  simp

/-- C5 witness: the amended invalid-poll theorem at a concrete state. -/
theorem c5_amended_witness :
    validTransitions.getD (newIdx 0 true true) 0 = 0 ∧
    debounceRotaryByTable ⟨0, 0⟩ true true = (⟨newIdx 0 true true, 0⟩, []) :=
  ⟨by decide, c5_amended ⟨0, 0⟩ true true (by decide)⟩

/-- C10: the unchanged-level branch of _debounceButton also runs while the
button is held pressed; if exactly one click is pending and more than the
250 ms gap has passed since the first click, the pending Click is emitted on
that poll of the hold and the accumulator is cleared. -/
theorem c10_click_during_hold (s : BtnState) (now : Nat) (hb : s.buttonState = false)
    (hc : s.clickCount = 1) (hgap : usub32 now s.msFirstClick > msDoubleClickGap) :
    debounceButton s false now = (⟨false, 0, s.msButtonDown, 0⟩, [Ev.Click]) := by
  obtain ⟨b, c, mbd, mfc⟩ := s
  simp only at hb hc hgap
  subst hb
  subst hc
  simp [debounceButton, hgap]

/-- C10 witness: the held-press Click theorem at a concrete state and time. -/
theorem c10_witness :
    usub32 400 100 > msDoubleClickGap ∧
    debounceButton ⟨false, 1, 77, 100⟩ false 400 = (⟨false, 0, 77, 0⟩, [Ev.Click]) :=
  ⟨by decide, c10_click_during_hold ⟨false, 1, 77, 100⟩ 400 rfl rfl (by decide)⟩

/-- C3 counterexample: an encoder built by the two-argument constructor (same
initial logical state; the button pin number is indeterminate, here 0) runs
the button classifier on every poll: a run whose button samples form a 100 ms
press, a release and a 300 ms pause emits a Click event, although the claim
states no button event can ever be emitted. -/
theorem c3_counterexample :
    (runLoop (initEnc ⟨27, 26, 0⟩ false false false false 0)
      [⟨true, true, false, 0⟩, ⟨true, true, true, 100⟩, ⟨true, true, true, 400⟩]).2
      = [Ev.Click] := by
  decide

/-- C3 amended: RotaryEncoder::loop invokes the button classifier
unconditionally, whichever constructor was used: every poll reads the stored
button pin first, the button part of the state is exactly the result of
_debounceButton on the sampled button level, and the emitted events are the
button events followed by the rotary events of the selected algorithm. -/
theorem c3_amended (s : EncState) (i : Input) :
    (loop s i).reads = [s.pins.button, s.pins.clk, s.pins.data] ∧
    (loop s i).state.btn = (debounceButton s.btn i.button i.now).1 ∧
    (loop s i).events = (debounceButton s.btn i.button i.now).2 ++
      (if s.byTable then (debounceRotaryByTable s.table i.clk i.data).2
       else (debounceRotaryByCleaning s.clean i.clk i.data).2.1) := by
  cases hb : s.byTable <;> simp [loop, hb]

/-- Helper: the digitalWrite calls of one cleaning poll are exactly one write
of the data level to pin 2 when the raw clock level changed and one write of
the clock level to pin 4 when the raw data level changed. -/
theorem cleaning_writes (cs : CleanState) (clk data : Bool) :
    (debounceRotaryByCleaning cs clk data).2.2 =
      (if cs.prevClkState ≠ clk then [(2, data)] else []) ++
      (if cs.prevDataState ≠ data then [(4, clk)] else []) := by
  obtain ⟨a, b, c, d, e, f, g, h⟩ := cs
  cases b <;> cases f <;> cases clk <;> cases data <;> rfl

/-- C7 counterexample: in cleaning mode, the very first poll from the initial
state (raw clock stored HIGH, previous clock LOW) performs digitalWrite calls
to pins GPIO_NUM_2 and GPIO_NUM_4, although the claim states the poll never
writes to any pin. -/
theorem c7_counterexample :
    (loop (setDebouncingRotEncByTable (initEnc ⟨27, 26, 25⟩ false false false false 0) false)
      ⟨true, true, true, 0⟩).writes = [(2, true), (4, true)] := by
  decide

/-- C7 amended: a table-mode poll performs no GPIO write; a cleaning-mode poll
writes exactly the cleaned clock level to pin GPIO_NUM_2 when a raw clock
transition is observed and the cleaned data level to pin GPIO_NUM_4 when a raw
data transition is observed, and nothing else. -/
theorem c7_amended (s : EncState) (i : Input) :
    (loop s i).writes =
      if s.byTable then []
      else (if s.clean.prevClkState ≠ i.clk then [(2, i.data)] else []) ++
           (if s.clean.prevDataState ≠ i.data then [(4, i.clk)] else []) := by
  cases hb : s.byTable
  · have hw := cleaning_writes s.clean i.clk i.data
    simp [loop, hb, hw]
  · simp [loop, hb]

/-- C8 counterexample: in the cleaning algorithm no state and input can fire
the clockwise and the counterclockwise edge condition in the same poll (the
first needs the cleaned data level LOW, the second needs it HIGH), although
the claim states a reachable state and input exists for which both fire. -/
theorem c8_counterexample :
    ¬ ∃ (a b c d e f g h clk data : Bool),
        Ev.CW ∈ (debounceRotaryByCleaning ⟨a, b, c, d, e, f, g, h⟩ clk data).2.1 ∧
        Ev.CCW ∈ (debounceRotaryByCleaning ⟨a, b, c, d, e, f, g, h⟩ clk data).2.1 := by
  decide

/-- C8 amended: each cleaning poll emits at most one clockwise and at most
one counterclockwise event, and the two edge conditions are mutually
exclusive: no poll ever emits both. -/
theorem c8_amended (a b c d e f g h clk data : Bool) :
    ((debounceRotaryByCleaning ⟨a, b, c, d, e, f, g, h⟩ clk data).2.1.count Ev.CW ≤ 1 ∧
     (debounceRotaryByCleaning ⟨a, b, c, d, e, f, g, h⟩ clk data).2.1.count Ev.CCW ≤ 1) ∧
    ¬ (Ev.CW ∈ (debounceRotaryByCleaning ⟨a, b, c, d, e, f, g, h⟩ clk data).2.1 ∧
       Ev.CCW ∈ (debounceRotaryByCleaning ⟨a, b, c, d, e, f, g, h⟩ clk data).2.1) := by
  revert a b c d e f g h clk data
  decide

/-- Unfolding lemma for runButton on a nonempty sample list. -/
theorem runButton_cons (s : BtnState) (l : Bool) (t : Nat) (rest : List (Bool × Nat)) :
    runButton s ((l, t) :: rest) =
      ((runButton (debounceButton s l t).1 rest).1,
       (debounceButton s l t).2 ++ (runButton (debounceButton s l t).1 rest).2) := by
  rcases h : runButton (debounceButton s l t).1 rest with ⟨s2, evs⟩
  simp [runButton, h]

/-- C6 counterexample: two 100 ms press/release pairs with a 200 ms gap
(less than 250 ms) between the first release and the second press, with polls
between the transitions.  The poll at 1360 ms falls inside the second hold and
more than 250 ms after the first click, so the pending Click fires there; the
run emits two Click events and no DoubleClick, although the claim states
exactly one DoubleClick and no Click. -/
theorem c6_counterexample :
    (runButton (initBtn 0)
      [(false, 1000), (true, 1100), (false, 1300), (false, 1360), (true, 1400), (true, 1700)]).2
      = [Ev.Click, Ev.Click] := by
  decide

/-- C6 amended: two press/release pairs of 100 ms each emit exactly one
DoubleClick and no Click, provided at most 150 ms passes between the first
release and the second press, so that the second release still falls inside
the 250 ms double-click gap measured from the first release; the trace polls
at the four edges, once between the pairs, once during the second hold, and
once afterwards. -/
theorem c6_amended (t0 u t1 v w m : Nat)
    (h1 : t0 + 100 ≤ u) (h2 : u ≤ t1) (h3 : t1 ≤ t0 + 250)
    (h4 : t1 ≤ v) (h5 : v ≤ t1 + 100) :
    (runButton (initBtn m)
      [(false, t0), (true, t0 + 100), (true, u), (false, t1),
       (false, v), (true, t1 + 100), (true, w)]).2 = [Ev.DoubleClick] := by
  have hu1 : usub32 (t0 + 100) t0 = 100 := by unfold usub32; omega
  have hu2 : usub32 (t1 + 100) t1 = 100 := by unfold usub32; omega
  have hng1 : ¬ usub32 u (t0 + 100) > msDoubleClickGap := by
    unfold usub32 msDoubleClickGap; omega
  have hng2 : ¬ usub32 v (t0 + 100) > msDoubleClickGap := by
    unfold usub32 msDoubleClickGap; omega
  have p1 : debounceButton ⟨true, 0, m, 0⟩ false t0 = (⟨false, 0, t0, 0⟩, []) := by
    simp [debounceButton]
  have p2 : debounceButton ⟨false, 0, t0, 0⟩ true (t0 + 100) = (⟨true, 1, t0, t0 + 100⟩, []) := by
    simp [debounceButton, hu1, msDebounce, msLongClick]
  have p3 : debounceButton ⟨true, 1, t0, t0 + 100⟩ true u = (⟨true, 1, t0, t0 + 100⟩, []) := by
    simp [debounceButton, hng1]
  have p4 : debounceButton ⟨true, 1, t0, t0 + 100⟩ false t1 = (⟨false, 1, t1, t0 + 100⟩, []) := by
    simp [debounceButton]
  have p5 : debounceButton ⟨false, 1, t1, t0 + 100⟩ false v = (⟨false, 1, t1, t0 + 100⟩, []) := by
    simp [debounceButton, hng2]
  have p6 : debounceButton ⟨false, 1, t1, t0 + 100⟩ true (t1 + 100) = (⟨true, 2, t1, t0 + 100⟩, []) := by
    simp [debounceButton, hu2, msDebounce, msLongClick]
  have p7 : debounceButton ⟨true, 2, t1, t0 + 100⟩ true w = (⟨true, 0, t1, 0⟩, [Ev.DoubleClick]) := by
    simp [debounceButton]
  rw [show initBtn m = ⟨true, 0, m, 0⟩ from rfl]
  rw [runButton_cons, p1]
  dsimp only
  rw [runButton_cons, p2]
  dsimp only
  rw [runButton_cons, p3]
  dsimp only
  rw [runButton_cons, p4]
  dsimp only
  rw [runButton_cons, p5]
  dsimp only
  rw [runButton_cons, p6]
  dsimp only
  rw [runButton_cons, p7]
  dsimp only
  rw [show runButton (⟨true, 0, t1, 0⟩ : BtnState) [] = (⟨true, 0, t1, 0⟩, []) from rfl]
  simp

/-- C6 witness: the amended double-click theorem at concrete times. -/
theorem c6_amended_witness :
    (runButton (initBtn 0)
      [(false, 1000), (true, 1100), (true, 1120), (false, 1150),
       (false, 1200), (true, 1250), (true, 1400)]).2 = [Ev.DoubleClick] :=
  c6_amended 1000 1120 1150 1200 1400 0 (by decide) (by decide) (by decide)
    (by decide) (by decide)

/-- Helper: every branch of _debounceButton stores the sampled level in
_buttonState. -/
theorem debounceButton_buttonState (s : BtnState) (level : Bool) (now : Nat) :
    (debounceButton s level now).1.buttonState = level := by
  unfold debounceButton
  repeat' split
  all_goals rfl

/-- Helper: a second button poll with the same level as the previous poll
keeps _buttonState and _msButtonDown, and either changes nothing and emits
nothing, or fires a gap timeout: it emits exactly one Click or one DoubleClick
and clears _clickCount and _msFirstClick. -/
theorem btn_second (s : BtnState) (level : Bool) (t1 t2 : Nat) :
    ((debounceButton (debounceButton s level t1).1 level t2).1.buttonState
        = (debounceButton s level t1).1.buttonState ∧
     (debounceButton (debounceButton s level t1).1 level t2).1.msButtonDown
        = (debounceButton s level t1).1.msButtonDown) ∧
    (((debounceButton (debounceButton s level t1).1 level t2).1
          = (debounceButton s level t1).1 ∧
      (debounceButton (debounceButton s level t1).1 level t2).2 = []) ∨
     (((debounceButton (debounceButton s level t1).1 level t2).2 = [Ev.Click] ∨
       (debounceButton (debounceButton s level t1).1 level t2).2 = [Ev.DoubleClick]) ∧
      (debounceButton (debounceButton s level t1).1 level t2).1.clickCount = 0 ∧
      (debounceButton (debounceButton s level t1).1 level t2).1.msFirstClick = 0)) := by
  have hlevel := debounceButton_buttonState s level t1
  rcases hfix : (debounceButton s level t1).1 with ⟨bs, cc, mbd, mfc⟩
  rw [hfix] at hlevel
  simp only at hlevel
  subst hlevel
  cases bs
  · by_cases hc1 : cc = 1
    · subst hc1
      by_cases hg : usub32 t2 mfc > msDoubleClickGap
      · exact ⟨⟨by simp [debounceButton, hg], by simp [debounceButton, hg]⟩,
               Or.inr ⟨Or.inl (by simp [debounceButton, hg]),
                       by simp [debounceButton, hg], by simp [debounceButton, hg]⟩⟩
      · exact ⟨⟨by simp [debounceButton, hg], by simp [debounceButton, hg]⟩,
               Or.inl ⟨by simp [debounceButton, hg], by simp [debounceButton, hg]⟩⟩
    · by_cases hc2 : cc > 1
      · exact ⟨⟨by simp [debounceButton, hc1, hc2], by simp [debounceButton, hc1, hc2]⟩,
               Or.inr ⟨Or.inr (by simp [debounceButton, hc1, hc2]),
                       by simp [debounceButton, hc1, hc2], by simp [debounceButton, hc1, hc2]⟩⟩
      · exact ⟨⟨by simp [debounceButton, hc1, hc2], by simp [debounceButton, hc1, hc2]⟩,
               Or.inl ⟨by simp [debounceButton, hc1, hc2], by simp [debounceButton, hc1, hc2]⟩⟩
  · by_cases hc1 : cc = 1
    · subst hc1
      by_cases hg : usub32 t2 mfc > msDoubleClickGap
      · exact ⟨⟨by simp [debounceButton, hg], by simp [debounceButton, hg]⟩,
               Or.inr ⟨Or.inl (by simp [debounceButton, hg]),
                       by simp [debounceButton, hg], by simp [debounceButton, hg]⟩⟩
      · exact ⟨⟨by simp [debounceButton, hg], by simp [debounceButton, hg]⟩,
               Or.inl ⟨by simp [debounceButton, hg], by simp [debounceButton, hg]⟩⟩
    · by_cases hc2 : cc > 1
      · exact ⟨⟨by simp [debounceButton, hc1, hc2], by simp [debounceButton, hc1, hc2]⟩,
               Or.inr ⟨Or.inr (by simp [debounceButton, hc1, hc2]),
                       by simp [debounceButton, hc1, hc2], by simp [debounceButton, hc1, hc2]⟩⟩
      · exact ⟨⟨by simp [debounceButton, hc1, hc2], by simp [debounceButton, hc1, hc2]⟩,
               Or.inl ⟨by simp [debounceButton, hc1, hc2], by simp [debounceButton, hc1, hc2]⟩⟩

/-- Helper: a second cleaning poll with the same raw levels as the previous
poll leaves the cleaning state unchanged, emits no event and performs no
write. -/
theorem clean_second (cs : CleanState) (clk data : Bool) :
    debounceRotaryByCleaning (debounceRotaryByCleaning cs clk data).1 clk data =
      ((debounceRotaryByCleaning cs clk data).1, [], []) := by
  obtain ⟨a, b, c, d, e, f, g, h⟩ := cs
  revert a b c d e f g h clk data
  decide

/-- Helper: a table poll whose looked-up index is invalid takes the else
branch: no event, _transitions kept, _newTransition overwritten. -/
theorem tableInvalidPoll (s : TableState) (clk data : Bool)
    (h : validTransitions.getD (newIdx s.newTransition clk data) 0 = 0) :
    debounceRotaryByTable s clk data
      = (⟨newIdx s.newTransition clk data, s.transitions⟩, []) := by
  have hb : (validTransitions.getD (newIdx s.newTransition clk data) 0 != 0) = false := by
    rw [h]
    rfl
  unfold debounceRotaryByTable
  rw [hb]
  simp

/-- Helper: a second table poll with the same raw levels as the previous poll
sees a repeat transition index, which is invalid: it emits no event and keeps
_transitions, but still overwrites _newTransition with the repeat index. -/
theorem table_second (s : TableState) (clk data : Bool) :
    (debounceRotaryByTable (debounceRotaryByTable s clk data).1 clk data).1.transitions
        = (debounceRotaryByTable s clk data).1.transitions ∧
    (debounceRotaryByTable (debounceRotaryByTable s clk data).1 clk data).2 = [] ∧
    (debounceRotaryByTable (debounceRotaryByTable s clk data).1 clk data).1.newTransition
        = newIdx (debounceRotaryByTable s clk data).1.newTransition clk data := by
  have h1 : (debounceRotaryByTable s clk data).1.newTransition
      = newIdx s.newTransition clk data := by
    unfold debounceRotaryByTable
    split <;> rfl
  have key : ∀ b : Nat, b < 4 →
      validTransitions.getD (((s.newTransition * 4 + b) % 16 * 4 + b) % 16) 0 = 0 := by
    intro b hb
    have hx : ((s.newTransition * 4 + b) % 16 * 4 + b) % 16 = 5 * b := by omega
    rw [hx]
    interval_cases b <;> rfl
  have key2 : validTransitions.getD
      (newIdx (newIdx s.newTransition clk data) clk data) 0 = 0 :=
    key ((if clk then 2 else 0) + (if data then 1 else 0))
      (by cases clk <;> cases data <;> decide)
  have h2 : debounceRotaryByTable (debounceRotaryByTable s clk data).1 clk data
      = (⟨newIdx ((debounceRotaryByTable s clk data).1.newTransition) clk data,
          (debounceRotaryByTable s clk data).1.transitions⟩, []) :=
    tableInvalidPoll (debounceRotaryByTable s clk data).1 clk data (by rw [h1]; exact key2)
  rw [h2]
  exact ⟨rfl, rfl, rfl⟩

/-- C9 counterexample: in the default table mode, two polls from the initial
state both sampling clock and data HIGH (the second poll thus sees levels
unchanged from the first) emit no event, yet the second poll changes derived
state: _newTransition goes from 3 to 15, although the claim states such a poll
leaves all derived state unchanged. -/
theorem c9_counterexample :
    (loop (loop (initEnc ⟨27, 26, 25⟩ false false false false 0) ⟨true, true, true, 10⟩).state
        ⟨true, true, true, 20⟩).events = [] ∧
    (loop (loop (initEnc ⟨27, 26, 25⟩ false false false false 0) ⟨true, true, true, 10⟩).state
        ⟨true, true, true, 20⟩).state.table.newTransition = 15 ∧
    (loop (initEnc ⟨27, 26, 25⟩ false false false false 0)
        ⟨true, true, true, 10⟩).state.table.newTransition = 3 := by
  decide

/-- C9 amended: a poll whose three raw levels equal those of the previous poll
performs no write and emits no rotary event; it leaves all derived state
unchanged except that in table mode _newTransition absorbs the repeated
sample, and except for a button gap timeout, which emits exactly one Click or
one DoubleClick and clears the click accumulator.  This covers both
debouncing modes. -/
theorem c9_amended (s : EncState) (clk data btn : Bool) (t1 t2 : Nat) :
    (loop (loop s ⟨clk, data, btn, t1⟩).state ⟨clk, data, btn, t2⟩).writes = [] ∧
    (loop (loop s ⟨clk, data, btn, t1⟩).state ⟨clk, data, btn, t2⟩).state.clean
        = (loop s ⟨clk, data, btn, t1⟩).state.clean ∧
    (loop (loop s ⟨clk, data, btn, t1⟩).state ⟨clk, data, btn, t2⟩).state.byTable
        = (loop s ⟨clk, data, btn, t1⟩).state.byTable ∧
    (loop (loop s ⟨clk, data, btn, t1⟩).state ⟨clk, data, btn, t2⟩).state.table.transitions
        = (loop s ⟨clk, data, btn, t1⟩).state.table.transitions ∧
    (loop (loop s ⟨clk, data, btn, t1⟩).state ⟨clk, data, btn, t2⟩).state.table.newTransition
        = (if s.byTable then
             newIdx (loop s ⟨clk, data, btn, t1⟩).state.table.newTransition clk data
           else (loop s ⟨clk, data, btn, t1⟩).state.table.newTransition) ∧
    (loop (loop s ⟨clk, data, btn, t1⟩).state ⟨clk, data, btn, t2⟩).state.btn.buttonState
        = (loop s ⟨clk, data, btn, t1⟩).state.btn.buttonState ∧
    (loop (loop s ⟨clk, data, btn, t1⟩).state ⟨clk, data, btn, t2⟩).state.btn.msButtonDown
        = (loop s ⟨clk, data, btn, t1⟩).state.btn.msButtonDown ∧
    (((loop (loop s ⟨clk, data, btn, t1⟩).state ⟨clk, data, btn, t2⟩).state.btn
          = (loop s ⟨clk, data, btn, t1⟩).state.btn ∧
      (loop (loop s ⟨clk, data, btn, t1⟩).state ⟨clk, data, btn, t2⟩).events = []) ∨
     (((loop (loop s ⟨clk, data, btn, t1⟩).state ⟨clk, data, btn, t2⟩).events = [Ev.Click] ∨
       (loop (loop s ⟨clk, data, btn, t1⟩).state ⟨clk, data, btn, t2⟩).events = [Ev.DoubleClick]) ∧
      (loop (loop s ⟨clk, data, btn, t1⟩).state ⟨clk, data, btn, t2⟩).state.btn.clickCount = 0 ∧
      (loop (loop s ⟨clk, data, btn, t1⟩).state ⟨clk, data, btn, t2⟩).state.btn.msFirstClick
          = 0)) := by
  obtain ⟨⟨hbs, hbd⟩, hor⟩ := btn_second s.btn btn t1 t2
  cases hb : s.byTable
  · have hcs := clean_second s.clean clk data
    simp only [loop, hb, Bool.false_eq_true, if_false, hcs]
    refine ⟨trivial, trivial, trivial, trivial, trivial, hbs, hbd, ?_⟩
    rcases hor with ⟨h1, h2⟩ | ⟨h1, h2, h3⟩
    · exact Or.inl ⟨h1, by simp [h2]⟩
    · exact Or.inr ⟨by rcases h1 with h1 | h1 <;> simp [h1], h2, h3⟩
  · obtain ⟨ht1, ht2, ht3⟩ := table_second s.table clk data
    simp only [loop, hb, if_true, ht1, ht3]
    refine ⟨trivial, trivial, trivial, trivial, trivial, hbs, hbd, ?_⟩
    rcases hor with ⟨h1, h2⟩ | ⟨h1, h2, h3⟩
    · exact Or.inl ⟨h1, by simp [h2, ht2]⟩
    · exact Or.inr ⟨by rcases h1 with h1 | h1 <;> simp [h1, ht2], h2, h3⟩

end RotaryEncoder
